import Mathlib

/-!
Shallow embedding of the GasGuard timeout-bounded scan coordinator:
`ScanService.executeScan` (inline `Promise.race`), `WorkerScanService.executeScanInWorker`
(worker-thread race over message / error / exit / timer with an `isResolved` guard),
and the payload-producing sites in `scan.worker.ts`.
-/

namespace GasGuard

/-- One scan finding, from `interfaces/scan.interface.ts` (`ScanFinding`). -/
structure ScanFinding where
  ruleId : String
  severity : String
  message : String
deriving DecidableEq, Repr

/-- A JS object travelling between worker, coordinator and caller. Fields
    are optional because `ScanResult` and `ScanError` are distinct shapes
    discriminated dynamically (`'code' in result && result.code`). -/
structure WirePayload where
  code : Option String := none
  message : Option String := none
  scanId : Option String := none
  timeoutMs : Option Int := none
  details : Option String := none
  status : Option String := none
  findings : Option (List ScanFinding) := none
  executionTime : Option Int := none
deriving DecidableEq, Repr

/-- One job: its correlation id and resolved effective timeout. -/
structure Job where
  scanId : String
  timeoutMs : Int
deriving DecidableEq, Repr

/-- JS `v || d` on an optional number: `undefined` and `0` are falsy and
    fall through to `d`; every other number (negatives included) is truthy
    and wins. -/
def jsOrInt : Option Int → Int → Int
  | none, d => d
  | some v, d => if v = 0 then d else v

/-- `ScanService` constructor: `configService.get('SCAN_MAX_EXECUTION_TIME_MS') || 30000`. -/
def scanServiceMaxTime (cfg : Option Int) : Int := jsOrInt cfg 30000

/-- `WorkerScanService` constructor: the identical expression
    `configService.get('SCAN_MAX_EXECUTION_TIME_MS') || 30000`. -/
def workerScanServiceMaxTime (cfg : Option Int) : Int := jsOrInt cfg 30000

/-- Effective timeout for one job: `options?.timeoutMs || this.maxExecutionTime`,
    where `maxExecutionTime` already folded the config against the 30000 fallback. -/
def resolveTimeout (ov cfg : Option Int) : Int := jsOrInt ov (scanServiceMaxTime cfg)

/-- Timeout error built in the `setTimeout` callback of
    `WorkerScanService.executeScanInWorker`. -/
def workerTimeoutPayload (j : Job) : WirePayload :=
  { code := some "SCAN_TIMEOUT"
    message := some ("Worker scan exceeded maximum execution time of " ++ toString j.timeoutMs ++ "ms")
    scanId := some j.scanId
    timeoutMs := some j.timeoutMs }

/-- Timeout error built in the `setTimeout` callback of `ScanService.executeScan`. -/
def inlineTimeoutPayload (j : Job) : WirePayload :=
  { code := some "SCAN_TIMEOUT"
    message := some ("Scan exceeded maximum execution time of " ++ toString j.timeoutMs ++ "ms")
    scanId := some j.scanId
    timeoutMs := some j.timeoutMs }

/-- Rejection built in the coordinator's `worker.on('error')` handler. -/
def coordErrorPayload (j : Job) (m : String) : WirePayload :=
  { code := some "SCAN_ERROR", message := some m, scanId := some j.scanId, details := some m }

/-- Rejection built in the coordinator's `worker.on('exit')` handler for a
    non-zero exit code. -/
def exitPayload (j : Job) (c : Int) : WirePayload :=
  { code := some "SCAN_ERROR"
    message := some ("Worker exited unexpectedly with code " ++ toString c)
    scanId := some j.scanId }

/-- Error posted by the `catch` inside `performScan` in `scan.worker.ts`:
    it carries the job's `scanId` read from `workerData`. -/
def workerCatchPayload (sid m : String) : WirePayload :=
  { code := some "SCAN_ERROR", message := some m, scanId := some sid, details := some m }

/-- Error posted by the top-level `performScan().catch(...)` in
    `scan.worker.ts`: its object literal has no `scanId` field. -/
def workerFatalPayload (m : String) : WirePayload :=
  { code := some "SCAN_ERROR", message := some m, details := some m }

/-- Successful result posted by the worker: `{ scanId, status: 'completed',
    findings: [], executionTime: Date.now() }`. -/
def workerResultPayload (sid : String) (t : Int) : WirePayload :=
  { scanId := some sid, status := some "completed", findings := some [], executionTime := some t }

/-- Dynamic discrimination in the coordinator's `message` handler:
    `'code' in result && result.code` — the field is present and truthy. -/
def payloadIsError (p : WirePayload) : Bool :=
  match p.code with
  | some c => c != ""
  | none => false

/-- Outcome delivered to the caller of the isolated coordinator:
    `resolve(result)` or `reject(error)`. -/
inductive WOutcome where
  | resolved (p : WirePayload)
  | rejected (p : WirePayload)
deriving DecidableEq, Repr

/-- Signals racing inside `executeScanInWorker`: the deadline timer, a
    worker `message`, a worker `error` event, and the worker `exit` event. -/
inductive WEvent where
  | timer
  | message (p : WirePayload)
  | werror (m : String)
  | wexit (c : Int)
deriving DecidableEq, Repr

/-- Micro-actions of one handler body, in source order. -/
inductive MicroAct where
  | setResolved
  | clearTimer
  | terminate
  | deliver (o : WOutcome)
deriving DecidableEq, Repr

/-- Coordinator-side state for one job: the `isResolved` flag, whether the
    `setTimeout` timer is still pending, whether `worker.terminate()` has
    been issued, the settled outcome, and how many times a handler resolved. -/
structure WState where
  isResolved : Bool
  timerActive : Bool
  terminated : Bool
  outcome : Option WOutcome
  resolutions : Nat
deriving DecidableEq, Repr

/-- Body of the timeout callback: set the flag, `worker.terminate()`, then
    `reject(error)` — in that source order. -/
def timeoutActs (j : Job) : List MicroAct :=
  [.setResolved, .terminate, .deliver (.rejected (workerTimeoutPayload j))]

/-- Body of the `message` handler: flag, `clearTimeout`, then reject the
    payload if it is error-shaped else resolve it. -/
def messageActs (p : WirePayload) : List MicroAct :=
  [.setResolved, .clearTimer, .deliver (if payloadIsError p then .rejected p else .resolved p)]

/-- Body of the `error` handler: flag, `clearTimeout`, reject a `SCAN_ERROR`. -/
def errorActs (j : Job) (m : String) : List MicroAct :=
  [.setResolved, .clearTimer, .deliver (.rejected (coordErrorPayload j m))]

/-- Body of the `exit` handler for a non-zero code. -/
def exitActs (j : Job) (c : Int) : List MicroAct :=
  [.setResolved, .clearTimer, .deliver (.rejected (exitPayload j c))]

/-- Guarded dispatch: each handler runs its body only under the guard the
    source writes (`!isResolved`, and `code !== 0` for `exit`; the timer
    callback can only run while the timeout is still pending). -/
def handlerActs (j : Job) (s : WState) : WEvent → List MicroAct
  | .timer => if s.timerActive && !s.isResolved then timeoutActs j else []
  | .message p => if !s.isResolved then messageActs p else []
  | .werror m => if !s.isResolved then errorActs j m else []
  | .wexit c => if !s.isResolved && c != 0 then exitActs j c else []

/-- Effect of one micro-action on the coordinator state. -/
def applyAct (s : WState) : MicroAct → WState
  | .setResolved => { s with isResolved := true, resolutions := s.resolutions + 1 }
  | .clearTimer => { s with timerActive := false }
  | .terminate => { s with terminated := true }
  | .deliver o => { s with outcome := some o }

/-- One signal arrival: run the corresponding handler body. -/
def wstep (j : Job) (s : WState) (e : WEvent) : WState :=
  (handlerActs j s e).foldl applyAct s

/-- State right after `new Promise(...)` starts: unresolved, timer pending. -/
def winit : WState :=
  { isResolved := false, timerActive := true, terminated := false, outcome := none, resolutions := 0 }

/-- A whole isolated-mode job: the signals in their real-time arrival order. -/
def wrun (j : Job) (es : List WEvent) : WState :=
  es.foldl (wstep j) winit

/-- Whether a signal resolves the job when it arrives first: every signal
    does except an exit with code 0, which the `exit` handler ignores. -/
def resolvesEvt : WEvent → Bool
  | .timer => true
  | .message _ => true
  | .werror _ => true
  | .wexit c => c != 0

/-- Outcome produced by the first resolving signal. -/
def firstOutcome (j : Job) : WEvent → WOutcome
  | .timer => .rejected (workerTimeoutPayload j)
  | .message p => if payloadIsError p then .rejected p else .resolved p
  | .werror m => .rejected (coordErrorPayload j m)
  | .wexit c => .rejected (exitPayload j c)

/-- JS value rejected by the inline scan promise: an `Error` instance, a
    plain object, or a non-object primitive. -/
inductive JsErrVal where
  | errInst (message : String)
  | obj (p : WirePayload)
  | prim
deriving DecidableEq, Repr

/-- Check in the inline `catch`: `error && typeof error === 'object' &&
    'code' in error && error.code === 'SCAN_TIMEOUT'`. -/
def isScanTimeout : JsErrVal → Bool
  | .obj p => p.code == some "SCAN_TIMEOUT"
  | _ => false

/-- Inline wrap message: `error instanceof Error ? error.message : 'Unknown scan error'`. -/
def jsErrMessage : JsErrVal → String
  | .errInst m => m
  | _ => "Unknown scan error"

/-- Inline `catch` body: re-throw a pre-classified timeout unchanged,
    otherwise wrap as a `SCAN_ERROR` with the job's `scanId`. -/
def wrapCatch (j : Job) (v : JsErrVal) : JsErrVal :=
  if isScanTimeout v then v
  else .obj { code := some "SCAN_ERROR", message := some (jsErrMessage v), scanId := some j.scanId }

/-- Signals racing in `Promise.race([scanPromise, timeoutPromise])`. -/
inductive IEvent where
  | itimer
  | iok (r : WirePayload)
  | ifail (v : JsErrVal)
deriving DecidableEq, Repr

/-- State of the inline race: the first settlement, and how many signals settled it. -/
structure RaceState where
  winner : Option (Except JsErrVal WirePayload)
  settles : Nat
deriving Repr

/-- Promise semantics: the first settlement wins, later ones are ignored. -/
def istep (j : Job) (s : RaceState) (e : IEvent) : RaceState :=
  match s.winner with
  | some _ => s
  | none =>
    match e with
    | .itimer => { winner := some (.error (.obj (inlineTimeoutPayload j))), settles := s.settles + 1 }
    | .iok r => { winner := some (.ok r), settles := s.settles + 1 }
    | .ifail v => { winner := some (.error v), settles := s.settles + 1 }

/-- Race state before any signal settles. -/
def iinit : RaceState := { winner := none, settles := 0 }

/-- The whole inline race over the arrival-ordered signals. -/
def raceRun (j : Job) (es : List IEvent) : RaceState :=
  es.foldl (istep j) iinit

/-- What `executeScan` returns to the caller: the race winner passed through
    the `try`/`catch` post-processing. -/
def executeScanResult (j : Job) (es : List IEvent) : Option (Except JsErrVal WirePayload) :=
  (raceRun j es).winner.map fun w =>
    match w with
    | .ok r => .ok r
    | .error v => .error (wrapCatch j v)

/-! Helper lemmas about the isolated-mode race. -/

theorem wstep_resolved (j : Job) (s : WState) (e : WEvent) (h : s.isResolved = true) :
    wstep j s e = s := by
  cases e <;> simp [wstep, handlerActs, h]

theorem wfoldl_resolved (j : Job) (es : List WEvent) :
    ∀ s : WState, s.isResolved = true → es.foldl (wstep j) s = s := by
  induction es with
  | nil => intro s _; rfl
  | cons e rest ih =>
    intro s h
    rw [List.foldl_cons, wstep_resolved j s e h]
    exact ih s h

theorem wstep_nonresolving (j : Job) (s : WState) (e : WEvent)
    (h : resolvesEvt e = false) : wstep j s e = s := by
  cases e with
  | timer => simp [resolvesEvt] at h
  | message p => simp [resolvesEvt] at h
  | werror m => simp [resolvesEvt] at h
  | wexit c =>
    have hc : (c != 0) = false := h
    simp [wstep, handlerActs, hc]

theorem wfoldl_nonresolving (j : Job) (es : List WEvent)
    (hes : ∀ e ∈ es, resolvesEvt e = false) :
    ∀ s : WState, es.foldl (wstep j) s = s := by
  induction es with
  | nil => intro s; rfl
  | cons e rest ih =>
    intro s
    rw [List.foldl_cons, wstep_nonresolving j s e (hes e (List.mem_cons_self e rest))]
    exact ih (fun x hx => hes x (List.mem_cons_of_mem e hx)) s

theorem wstep_winit_timer (j : Job) :
    wstep j winit .timer =
      { isResolved := true, timerActive := true, terminated := true,
        outcome := some (.rejected (workerTimeoutPayload j)), resolutions := 1 } := rfl

theorem wstep_winit_message (j : Job) (p : WirePayload) :
    wstep j winit (.message p) =
      { isResolved := true, timerActive := false, terminated := false,
        outcome := some (if payloadIsError p then .rejected p else .resolved p),
        resolutions := 1 } := rfl

theorem wstep_winit_werror (j : Job) (m : String) :
    wstep j winit (.werror m) =
      { isResolved := true, timerActive := false, terminated := false,
        outcome := some (.rejected (coordErrorPayload j m)), resolutions := 1 } := rfl

theorem wstep_winit_wexit (j : Job) (c : Int) (h : (c != 0) = true) :
    wstep j winit (.wexit c) =
      { isResolved := true, timerActive := false, terminated := false,
        outcome := some (.rejected (exitPayload j c)), resolutions := 1 } := by
  have hacts : handlerActs j winit (.wexit c) = exitActs j c := by
    simp [handlerActs, winit, h]
  rw [wstep, hacts]
  rfl

theorem wstep_winit_resolves (j : Job) (e : WEvent) (h : resolvesEvt e = true) :
    (wstep j winit e).isResolved = true := by
  cases e with
  | timer => rw [wstep_winit_timer]
  | message p => rw [wstep_winit_message]
  | werror m => rw [wstep_winit_werror]
  | wexit c => rw [wstep_winit_wexit j c h]

theorem wstep_winit_outcome (j : Job) (e : WEvent) (h : resolvesEvt e = true) :
    (wstep j winit e).outcome = some (firstOutcome j e) := by
  cases e with
  | timer => rw [wstep_winit_timer]; rfl
  | message p => rw [wstep_winit_message]; rfl
  | werror m => rw [wstep_winit_werror]; rfl
  | wexit c => rw [wstep_winit_wexit j c h]; rfl

theorem wrun_first_wins (j : Job) (es₁ : List WEvent) (e : WEvent) (es₂ : List WEvent)
    (h₁ : ∀ x ∈ es₁, resolvesEvt x = false) (h₂ : resolvesEvt e = true) :
    wrun j (es₁ ++ e :: es₂) = wstep j winit e := by
  rw [wrun, List.foldl_append, wfoldl_nonresolving j es₁ h₁ winit, List.foldl_cons]
  exact wfoldl_resolved j es₂ _ (wstep_winit_resolves j e h₂)

/-- Invariant of reachable coordinator states: the resolution counter
    matches the flag, an unresolved job still has its timer pending and no
    outcome, and a resolved job has delivered an outcome. -/
def WInv (s : WState) : Prop :=
  s.resolutions = (if s.isResolved then 1 else 0) ∧
  (s.isResolved = false → s.timerActive = true ∧ s.outcome = none) ∧
  (s.isResolved = true → s.outcome.isSome = true)

theorem winv_init : WInv winit := by
  refine ⟨rfl, fun _ => ⟨rfl, rfl⟩, fun h => ?_⟩
  simp [winit] at h

theorem winv_step (j : Job) (e : WEvent) (s : WState) (h : WInv s) : WInv (wstep j s e) := by
  by_cases hr : s.isResolved = true
  · rw [wstep_resolved j s e hr]; exact h
  · have hr' : s.isResolved = false := by simpa using hr
    have hta : s.timerActive = true := (h.2.1 hr').1
    have hres : s.resolutions = 0 := by simpa [hr'] using h.1
    cases e with
    | timer =>
      have hacts : handlerActs j s .timer = timeoutActs j := by
        simp [handlerActs, hr', hta]
      rw [wstep, hacts]
      simp [timeoutActs, applyAct, WInv, hres]
    | message p =>
      have hacts : handlerActs j s (.message p) = messageActs p := by
        simp [handlerActs, hr']
      rw [wstep, hacts]
      simp [messageActs, applyAct, WInv, hres]
    | werror m =>
      have hacts : handlerActs j s (.werror m) = errorActs j m := by
        simp [handlerActs, hr']
      rw [wstep, hacts]
      simp [errorActs, applyAct, WInv, hres]
    | wexit c =>
      by_cases hc : (c != 0) = true
      · have hacts : handlerActs j s (.wexit c) = exitActs j c := by
          simp [handlerActs, hr', hc]
        rw [wstep, hacts]
        simp [exitActs, applyAct, WInv, hres]
      · have hc' : (c != 0) = false := by simpa using hc
        have hacts : handlerActs j s (.wexit c) = [] := by
          simp [handlerActs, hc']
        rw [wstep, hacts]
        exact h

theorem winv_foldl (j : Job) (es : List WEvent) :
    ∀ s : WState, WInv s → WInv (es.foldl (wstep j) s) := by
  induction es with
  | nil => intro s h; exact h
  | cons e rest ih =>
    intro s h
    rw [List.foldl_cons]
    exact ih (wstep j s e) (winv_step j e s h)

theorem wrun_inv (j : Job) (es : List WEvent) : WInv (wrun j es) :=
  winv_foldl j es winit winv_init

theorem wfoldl_resolved_of_timer_mem (j : Job) (es : List WEvent) :
    ∀ s : WState, WInv s → WEvent.timer ∈ es →
      (es.foldl (wstep j) s).isResolved = true := by
  induction es with
  | nil => intro s _ hmem; simp at hmem
  | cons e rest ih =>
    intro s hs hmem
    rw [List.foldl_cons]
    by_cases hr : s.isResolved = true
    · rw [wstep_resolved j s e hr, wfoldl_resolved j rest s hr]
      exact hr
    · have hr' : s.isResolved = false := by simpa using hr
      rcases List.mem_cons.mp hmem with he | he
      · subst he
        have hta : s.timerActive = true := (hs.2.1 hr').1
        have hstep : (wstep j s .timer).isResolved = true := by
          have hacts : handlerActs j s .timer = timeoutActs j := by
            simp [handlerActs, hr', hta]
          rw [wstep, hacts]
          simp [timeoutActs, applyAct]
        rw [wfoldl_resolved j rest _ hstep]
        exact hstep
      · exact ih (wstep j s e) (winv_step j e s hs) he

theorem wrun_resolved_of_timer_mem (j : Job) (es : List WEvent)
    (hmem : WEvent.timer ∈ es) : (wrun j es).isResolved = true :=
  wfoldl_resolved_of_timer_mem j es winit winv_init hmem

/-! Helper lemmas about the inline `Promise.race`. -/

theorem istep_settled (j : Job) (s : RaceState) (e : IEvent)
    (h : s.winner.isSome = true) : istep j s e = s := by
  rcases Option.isSome_iff_exists.mp h with ⟨w, hw⟩
  simp [istep, hw]

theorem ifoldl_settled (j : Job) (es : List IEvent) :
    ∀ s : RaceState, s.winner.isSome = true → es.foldl (istep j) s = s := by
  induction es with
  | nil => intro s _; rfl
  | cons e rest ih =>
    intro s h
    rw [List.foldl_cons, istep_settled j s e h]
    exact ih s h

theorem istep_iinit_settles (j : Job) (e : IEvent) :
    (istep j iinit e).winner.isSome = true := by
  cases e <;> rfl

theorem race_first (j : Job) (e : IEvent) (es : List IEvent) :
    raceRun j (e :: es) = istep j iinit e := by
  rw [raceRun, List.foldl_cons]
  exact ifoldl_settled j es _ (istep_iinit_settles j e)

/-- Invariant of the inline race: the settle counter matches whether a
    winner exists. -/
def RInv (s : RaceState) : Prop :=
  s.settles = (if s.winner.isSome then 1 else 0)

theorem rinv_init : RInv iinit := rfl

theorem rinv_step (j : Job) (e : IEvent) (s : RaceState) (h : RInv s) :
    RInv (istep j s e) := by
  by_cases hw : s.winner.isSome = true
  · rw [istep_settled j s e hw]; exact h
  · have hw' : s.winner = none := by
      cases hwin : s.winner with
      | none => rfl
      | some w => rw [hwin] at hw; simp at hw
    have hs : s.settles = 0 := by simpa [RInv, hw'] using h
    cases e <;> simp [istep, hw', RInv, hs]

theorem rinv_foldl (j : Job) (es : List IEvent) :
    ∀ s : RaceState, RInv s → RInv (es.foldl (istep j) s) := by
  induction es with
  | nil => intro s h; exact h
  | cons e rest ih =>
    intro s h
    rw [List.foldl_cons]
    exact ih (istep j s e) (rinv_step j e s h)

theorem ifoldl_settled_of_timer_mem (j : Job) (es : List IEvent) :
    ∀ s : RaceState, IEvent.itimer ∈ es →
      (es.foldl (istep j) s).winner.isSome = true := by
  induction es with
  | nil => intro s hmem; simp at hmem
  | cons e rest ih =>
    intro s hmem
    rw [List.foldl_cons]
    by_cases hw : s.winner.isSome = true
    · rw [istep_settled j s e hw, ifoldl_settled j rest s hw]
      exact hw
    · have hw' : s.winner = none := by
        cases hwin : s.winner with
        | none => rfl
        | some w => rw [hwin] at hw; simp at hw
      rcases List.mem_cons.mp hmem with he | he
      · subst he
        have hstep : (istep j s .itimer).winner.isSome = true := by
          simp [istep, hw']
        rw [ifoldl_settled j rest _ hstep]
        exact hstep
      · exact ih (istep j s e) he

/-! Claim theorems. -/

/-- C1 counterexample: the claim states that a non-positive per-job override
    is ignored, so `resolve(-1, 15000, 30000) = 15000`. The code computes
    `options?.timeoutMs || this.maxExecutionTime`, and under JS `||` the
    value `-1` is truthy, so the override `-1` wins and the result is `-1`. -/
theorem c1_counterexample_negative_override :
    resolveTimeout (some (-1)) (some 15000) = -1 ∧
    resolveTimeout (some (-1)) (some 15000) ≠ 15000 := by
  decide

/-- C1 amended: a positive per-job override wins; a zero or absent override
    falls through to the configured default, else the 30000 fallback; but a
    negative override is truthy under JS `||` and is used as-is, so
    `resolve(-1, 15000, 30000)` yields `-1` rather than 15000. -/
theorem c1_deadline_policy_precedence :
    resolveTimeout (some 500) (some 30000) = 500 ∧
    resolveTimeout none (some 15000) = 15000 ∧
    resolveTimeout none none = 30000 ∧
    resolveTimeout (some (-1)) (some 15000) = -1 ∧
    (∀ v cfg, resolveTimeout (some v) cfg = if v = 0 then scanServiceMaxTime cfg else v) ∧
    (∀ cfg, resolveTimeout none cfg = scanServiceMaxTime cfg) :=
  ⟨by decide, by decide, by decide, by decide, fun _ _ => rfl, fun _ => rfl⟩

/-- C6 counterexample: the claim states an absent or non-positive config
    setting yields the 30000 fallback. Under JS `||` only `0` and absence
    are falsy: a negative setting such as `-5` is truthy and becomes the
    process-wide default unchanged, in both coordinators. -/
theorem c6_counterexample_negative_config :
    scanServiceMaxTime (some (-5)) = -5 ∧
    scanServiceMaxTime (some (-5)) ≠ 30000 ∧
    workerScanServiceMaxTime (some (-5)) = -5 := by
  decide

/-- C6 amended: both coordinators compute the process-wide default timeout
    by the same expression over the single `SCAN_MAX_EXECUTION_TIME_MS`
    setting; an absent or zero setting yields the hardcoded 30000 fallback,
    while any nonzero setting (negatives included) is used as-is. -/
theorem c6_default_timeout_fallback :
    scanServiceMaxTime none = 30000 ∧
    scanServiceMaxTime (some 0) = 30000 ∧
    (∀ v, scanServiceMaxTime (some v) = if v = 0 then 30000 else v) ∧
    (∀ cfg, workerScanServiceMaxTime cfg = scanServiceMaxTime cfg) :=
  ⟨by decide, by decide, fun _ => rfl, fun _ => rfl⟩

/-- C2: in both modes the caller observes exactly one Outcome per job. In
    isolated mode, any arrival order of signals that includes the deadline
    timer resolves the job exactly once and delivers an outcome, and once
    resolved every later signal is a no-op; in inline mode the race settles
    exactly once and later settlements are ignored. -/
theorem c2_exactly_once_resolution :
    (∀ (j : Job) (es : List WEvent), WEvent.timer ∈ es →
      (wrun j es).resolutions = 1 ∧ (wrun j es).outcome.isSome = true) ∧
    (∀ (j : Job) (s : WState) (e : WEvent), s.isResolved = true → wstep j s e = s) ∧
    (∀ (j : Job) (es : List IEvent), IEvent.itimer ∈ es →
      (raceRun j es).settles = 1 ∧ (executeScanResult j es).isSome = true) ∧
    (∀ (j : Job) (s : RaceState) (e : IEvent), s.winner.isSome = true → istep j s e = s) := by
  refine ⟨?_, wstep_resolved, ?_, istep_settled⟩
  · intro j es hmem
    have hres := wrun_resolved_of_timer_mem j es hmem
    have hinv := wrun_inv j es
    refine ⟨?_, hinv.2.2 hres⟩
    have h1 := hinv.1
    rw [hres] at h1
    simpa using h1
  · intro j es hmem
    have hsome : (raceRun j es).winner.isSome = true := by
      rw [raceRun]
      exact ifoldl_settled_of_timer_mem j es iinit hmem
    have hinv : RInv (raceRun j es) := rinv_foldl j es iinit rinv_init
    refine ⟨?_, ?_⟩
    · rw [RInv, hsome] at hinv
      simpa using hinv
    · rcases Option.isSome_iff_exists.mp hsome with ⟨w, hw⟩
      simp [executeScanResult, hw]

/-- C2 witness: a concrete isolated-mode trace where exit(0), the timer and
    a late message all arrive resolves exactly once, and a concrete inline
    trace where the work result then the timer settle does too. -/
theorem c2_exactly_once_resolution_witness :
    ((wrun ⟨"jw2", 40⟩ [.wexit 0, .timer, .message (workerResultPayload "jw2" 7)]).resolutions = 1 ∧
      (wrun ⟨"jw2", 40⟩ [.wexit 0, .timer, .message (workerResultPayload "jw2" 7)]).outcome.isSome = true) ∧
    ((raceRun ⟨"jw2", 40⟩ [.iok (workerResultPayload "jw2" 7), .itimer]).settles = 1 ∧
      (executeScanResult ⟨"jw2", 40⟩ [.iok (workerResultPayload "jw2" 7), .itimer]).isSome = true) :=
  ⟨c2_exactly_once_resolution.1 ⟨"jw2", 40⟩ _ (by decide),
   c2_exactly_once_resolution.2.2.1 ⟨"jw2", 40⟩ _ (by decide)⟩

/-- C3: when the deadline elapses first (every earlier signal is one the
    handlers ignore), both modes deliver a timeout outcome whose payload
    carries `code = "SCAN_TIMEOUT"`, the job's id, `timeoutMs` equal to the
    effective timeout, and a message containing the numeric timeout value. -/
theorem c3_timeout_outcome_fields :
    (∀ (j : Job) (es₁ es₂ : List WEvent), (∀ x ∈ es₁, resolvesEvt x = false) →
      (wrun j (es₁ ++ .timer :: es₂)).outcome = some (.rejected (workerTimeoutPayload j)) ∧
      (workerTimeoutPayload j).code = some "SCAN_TIMEOUT" ∧
      (workerTimeoutPayload j).scanId = some j.scanId ∧
      (workerTimeoutPayload j).timeoutMs = some j.timeoutMs ∧
      (∃ pre post, (workerTimeoutPayload j).message = some (pre ++ toString j.timeoutMs ++ post))) ∧
    (∀ (j : Job) (es : List IEvent),
      executeScanResult j (.itimer :: es) = some (.error (.obj (inlineTimeoutPayload j))) ∧
      (inlineTimeoutPayload j).code = some "SCAN_TIMEOUT" ∧
      (inlineTimeoutPayload j).scanId = some j.scanId ∧
      (inlineTimeoutPayload j).timeoutMs = some j.timeoutMs ∧
      (∃ pre post, (inlineTimeoutPayload j).message = some (pre ++ toString j.timeoutMs ++ post))) := by
  constructor
  · intro j es₁ es₂ h₁
    refine ⟨?_, rfl, rfl, rfl,
      ⟨"Worker scan exceeded maximum execution time of ", "ms", rfl⟩⟩
    rw [wrun_first_wins j es₁ .timer es₂ h₁ rfl, wstep_winit_timer]
  · intro j es
    refine ⟨?_, rfl, rfl, rfl,
      ⟨"Scan exceeded maximum execution time of ", "ms", rfl⟩⟩
    have hwrap : wrapCatch j (.obj (inlineTimeoutPayload j)) = .obj (inlineTimeoutPayload j) := by
      simp [wrapCatch, isScanTimeout, inlineTimeoutPayload]
    rw [executeScanResult, race_first]
    simp [istep, iinit, hwrap]

/-- C3 witness: a concrete job whose trace starts with an ignored exit(0)
    and then the timer yields the fully specified timeout payload. -/
theorem c3_timeout_outcome_fields_witness :
    (wrun ⟨"jw3", 50⟩ ([.wexit 0] ++ .timer :: [])).outcome =
      some (.rejected (workerTimeoutPayload ⟨"jw3", 50⟩)) ∧
    (workerTimeoutPayload ⟨"jw3", 50⟩).code = some "SCAN_TIMEOUT" ∧
    (workerTimeoutPayload ⟨"jw3", 50⟩).scanId = some (Job.scanId ⟨"jw3", 50⟩) ∧
    (workerTimeoutPayload ⟨"jw3", 50⟩).timeoutMs = some (Job.timeoutMs ⟨"jw3", 50⟩) ∧
    (∃ pre post, (workerTimeoutPayload ⟨"jw3", 50⟩).message =
      some (pre ++ toString (Job.timeoutMs ⟨"jw3", 50⟩) ++ post)) :=
  c3_timeout_outcome_fields.1 ⟨"jw3", 50⟩ [.wexit 0] [] (by decide)

/-- C4: in inline mode a work failure that is an `Error` instance with
    message `m`, arriving before the timer, yields a `SCAN_ERROR` fault
    carrying `m` and the job's id; a failure already classified
    `SCAN_TIMEOUT` is re-thrown unchanged rather than re-wrapped. -/
theorem c4_inline_fault_wrapping :
    (∀ (j : Job) (m : String) (es : List IEvent),
      executeScanResult j (.ifail (.errInst m) :: es) =
        some (.error (.obj { code := some "SCAN_ERROR", message := some m,
                             scanId := some j.scanId }))) ∧
    (∀ (j : Job) (v : JsErrVal) (es : List IEvent), isScanTimeout v = true →
      executeScanResult j (.ifail v :: es) = some (.error v)) := by
  constructor
  · intro j m es
    rw [executeScanResult, race_first]
    simp [istep, iinit, wrapCatch, isScanTimeout, jsErrMessage]
  · intro j v es hv
    rw [executeScanResult, race_first]
    simp [istep, iinit, wrapCatch, hv]

/-- C4 witness: a pre-classified timeout object thrown by the work function
    is propagated unchanged by the inline catch. -/
theorem c4_inline_fault_wrapping_witness :
    executeScanResult ⟨"jw4", 9⟩ [.ifail (.obj (inlineTimeoutPayload ⟨"jw4", 9⟩))] =
      some (.error (.obj (inlineTimeoutPayload ⟨"jw4", 9⟩))) :=
  c4_inline_fault_wrapping.2 ⟨"jw4", 9⟩ _ [] (by decide)

/-- C5 counterexample: the claim states every fault outcome carries the
    job's id, through any error path of the isolated execution unit. The
    worker's top-level `performScan().catch(...)` posts a `SCAN_ERROR`
    payload with no `scanId` field, and the coordinator's `message` handler
    rejects it unchanged, so the caller's fault outcome lacks the job id. -/
theorem c5_counterexample_worker_fatal_without_scanid :
    (wrun ⟨"job-1", 50⟩ [.message (workerFatalPayload "Fatal error in worker")]).outcome =
      some (.rejected (workerFatalPayload "Fatal error in worker")) ∧
    (workerFatalPayload "Fatal error in worker").code = some "SCAN_ERROR" ∧
    (workerFatalPayload "Fatal error in worker").scanId = none ∧
    (workerFatalPayload "Fatal error in worker").scanId ≠ some "job-1" := by
  decide

/-- C5 amended: every fault payload carries `code = "SCAN_ERROR"` and a
    message, and every fault path — the coordinator's `error` and `exit`
    handlers, the worker's inner catch, and the inline wrap — also carries
    the job's id, except the worker's top-level fatal catch, whose payload
    has no `scanId`. -/
theorem c5_fault_outcome_fields :
    (∀ (j : Job) (m : String), (coordErrorPayload j m).code = some "SCAN_ERROR" ∧
      (coordErrorPayload j m).message = some m ∧
      (coordErrorPayload j m).scanId = some j.scanId) ∧
    (∀ (j : Job) (c : Int), (exitPayload j c).code = some "SCAN_ERROR" ∧
      (exitPayload j c).message.isSome = true ∧
      (exitPayload j c).scanId = some j.scanId) ∧
    (∀ (sid m : String), (workerCatchPayload sid m).code = some "SCAN_ERROR" ∧
      (workerCatchPayload sid m).message = some m ∧
      (workerCatchPayload sid m).scanId = some sid) ∧
    (∀ (j : Job) (v : JsErrVal), isScanTimeout v = false →
      wrapCatch j v = .obj { code := some "SCAN_ERROR",
                             message := some (jsErrMessage v),
                             scanId := some j.scanId }) ∧
    (∀ (m : String), (workerFatalPayload m).code = some "SCAN_ERROR" ∧
      (workerFatalPayload m).message = some m ∧
      (workerFatalPayload m).scanId = none) := by
  refine ⟨fun j m => ⟨rfl, rfl, rfl⟩, fun j c => ⟨rfl, rfl, rfl⟩,
    fun sid m => ⟨rfl, rfl, rfl⟩, ?_, fun m => ⟨rfl, rfl, rfl⟩⟩
  intro j v hv
  simp [wrapCatch, hv]

/-- C5 witness: a non-timeout primitive failure is wrapped by the inline
    catch into a `SCAN_ERROR` payload carrying the job's id. -/
theorem c5_fault_outcome_fields_witness :
    wrapCatch ⟨"jw5", 1⟩ .prim =
      .obj { code := some "SCAN_ERROR", message := some (jsErrMessage .prim),
             scanId := some "jw5" } :=
  c5_fault_outcome_fields.2.2.2.1 ⟨"jw5", 1⟩ .prim (by decide)

/-- C7: when the timer fires first in isolated mode, the final state shows
    the worker was terminated and the timeout outcome delivered; and within
    the timeout callback body the `worker.terminate()` action occurs at a
    strictly earlier position than the delivery of the timeout rejection. -/
theorem c7_terminate_before_timeout_delivery :
    (∀ (j : Job) (es₁ es₂ : List WEvent), (∀ x ∈ es₁, resolvesEvt x = false) →
      (wrun j (es₁ ++ .timer :: es₂)).terminated = true ∧
      (wrun j (es₁ ++ .timer :: es₂)).outcome = some (.rejected (workerTimeoutPayload j))) ∧
    (∀ j : Job, ∃ i k : Nat, i < k ∧
      (timeoutActs j)[i]? = some MicroAct.terminate ∧
      (timeoutActs j)[k]? = some (MicroAct.deliver (.rejected (workerTimeoutPayload j)))) := by
  constructor
  · intro j es₁ es₂ h₁
    rw [wrun_first_wins j es₁ .timer es₂ h₁ rfl, wstep_winit_timer]
    exact ⟨rfl, rfl⟩
  · intro j
    exact ⟨1, 2, by decide, rfl, rfl⟩

/-- C7 witness: for a concrete job whose only signal is the timer, the
    worker ends terminated and the outcome is the timeout rejection. -/
theorem c7_terminate_before_timeout_delivery_witness :
    (wrun ⟨"jw7", 60⟩ ([] ++ .timer :: [])).terminated = true ∧
    (wrun ⟨"jw7", 60⟩ ([] ++ .timer :: [])).outcome =
      some (.rejected (workerTimeoutPayload ⟨"jw7", 60⟩)) :=
  c7_terminate_before_timeout_delivery.1 ⟨"jw7", 60⟩ [] [] (by simp)

/-- C8: a non-zero worker exit arriving before any resolving signal and
    before the deadline produces a `SCAN_ERROR` fault whose message names
    the abnormal exit code, carrying the job's id — the job does not hang. -/
theorem c8_nonzero_exit_faults :
    ∀ (j : Job) (c : Int) (es₁ es₂ : List WEvent),
      (∀ x ∈ es₁, resolvesEvt x = false) → c ≠ 0 →
      (wrun j (es₁ ++ .wexit c :: es₂)).outcome = some (.rejected (exitPayload j c)) ∧
      (wrun j (es₁ ++ .wexit c :: es₂)).outcome.isSome = true ∧
      (exitPayload j c).code = some "SCAN_ERROR" ∧
      (exitPayload j c).message = some ("Worker exited unexpectedly with code " ++ toString c) ∧
      (exitPayload j c).scanId = some j.scanId := by
  intro j c es₁ es₂ h₁ hc
  have hcb : (c != 0) = true := by simpa using hc
  have hwin := wrun_first_wins j es₁ (.wexit c) es₂ h₁ hcb
  rw [hwin, wstep_winit_wexit j c hcb]
  exact ⟨rfl, rfl, rfl, rfl, rfl⟩

/-- C8 witness: a worker exiting with code 1 before the deadline faults the
    job even though the timer would have fired later. -/
theorem c8_nonzero_exit_faults_witness :
    (wrun ⟨"jw8", 70⟩ ([] ++ .wexit 1 :: [.timer])).outcome =
      some (.rejected (exitPayload ⟨"jw8", 70⟩ 1)) ∧
    (wrun ⟨"jw8", 70⟩ ([] ++ .wexit 1 :: [.timer])).outcome.isSome = true ∧
    (exitPayload ⟨"jw8", 70⟩ 1).code = some "SCAN_ERROR" ∧
    (exitPayload ⟨"jw8", 70⟩ 1).message =
      some ("Worker exited unexpectedly with code " ++ toString (1 : Int)) ∧
    (exitPayload ⟨"jw8", 70⟩ 1).scanId = some (Job.scanId ⟨"jw8", 70⟩) :=
  c8_nonzero_exit_faults ⟨"jw8", 70⟩ 1 [] [.timer] (by simp) (by decide)

/-- C9: a work result arriving before the deadline yields a Completed
    outcome carrying exactly that result in both modes, and the outcome
    stays that result no matter which signals (the timer included) arrive
    later — no timeout is ever observed for such a job. -/
theorem c9_completed_before_deadline :
    (∀ (j : Job) (p : WirePayload) (es₁ es₂ : List WEvent),
      (∀ x ∈ es₁, resolvesEvt x = false) → payloadIsError p = false →
      (wrun j (es₁ ++ .message p :: es₂)).outcome = some (.resolved p)) ∧
    (∀ (j : Job) (r : WirePayload) (es : List IEvent),
      executeScanResult j (.iok r :: es) = some (.ok r)) := by
  constructor
  · intro j p es₁ es₂ h₁ hp
    rw [wrun_first_wins j es₁ (.message p) es₂ h₁ rfl, wstep_winit_message]
    simp [hp]
  · intro j r es
    rw [executeScanResult, race_first]
    simp [istep, iinit]

/-- C9 witness: a successful worker result followed by the (late) timer
    still leaves the job completed with exactly that result. -/
theorem c9_completed_before_deadline_witness :
    (wrun ⟨"jw9", 80⟩ ([] ++ .message (workerResultPayload "jw9" 5) :: [.timer])).outcome =
      some (.resolved (workerResultPayload "jw9" 5)) :=
  c9_completed_before_deadline.1 ⟨"jw9", 80⟩ (workerResultPayload "jw9" 5) [] [.timer]
    (by simp) (by decide)

/-- C10: a clean exit (code 0) never resolves the job — the exit handler
    acts only on non-zero codes, so the step is the identity on any state —
    and a job whose only signals before the deadline are clean exits stays
    unresolved until the timer fires and delivers the timeout outcome. -/
theorem c10_clean_exit_waits_for_timeout :
    (∀ (j : Job) (s : WState), wstep j s (.wexit 0) = s) ∧
    (∀ (j : Job) (es₁ es₂ : List WEvent), (∀ x ∈ es₁, x = WEvent.wexit 0) →
      (wrun j es₁).isResolved = false ∧
      (wrun j (es₁ ++ .timer :: es₂)).outcome = some (.rejected (workerTimeoutPayload j))) := by
  constructor
  · intro j s
    exact wstep_nonresolving j s (.wexit 0) (by decide)
  · intro j es₁ es₂ h₁
    have hnr : ∀ x ∈ es₁, resolvesEvt x = false := by
      intro x hx
      rw [h₁ x hx]
      decide
    constructor
    · rw [wrun, wfoldl_nonresolving j es₁ hnr winit]
      rfl
    · rw [wrun_first_wins j es₁ .timer es₂ hnr rfl, wstep_winit_timer]

/-- C10 witness: two clean exits leave the job unresolved, and the timer
    then produces the timeout outcome. -/
theorem c10_clean_exit_waits_for_timeout_witness :
    (wrun ⟨"jw10", 30⟩ [.wexit 0, .wexit 0]).isResolved = false ∧
    (wrun ⟨"jw10", 30⟩ ([.wexit 0, .wexit 0] ++ .timer :: [])).outcome =
      some (.rejected (workerTimeoutPayload ⟨"jw10", 30⟩)) :=
  c10_clean_exit_waits_for_timeout.2 ⟨"jw10", 30⟩ [.wexit 0, .wexit 0] [] (by decide)

end GasGuard
